import Mathlib

/-!
Verification of the runtime-entry core of the Dart VM
(`runtime/vm/code_generator.cc`) against its specification.

The development shallowly embeds the runtime entries of that file:
object identities (raw pointers) are modelled as natural numbers,
class ids as integers (the source uses `intptr_t`), external
collaborators (the compiler, the object model's `IsInstanceOf`,
`InstantiateFrom`, canonicalization) appear as oracle parameters whose
results are inputs of the embedded functions, and mutation of VM state
is explicit state passing.
-/

namespace CodeGen

/-- Identity of an `AbstractTypeArguments` object as the cache sees it:
`id` models the raw pointer, `isLazy` models
`IsInstantiatedTypeArguments()` (a still-lazy
`InstantiatedTypeArguments` pair). Two references are the same object
exactly when the whole structure is equal. -/
structure TAVec where
  id : Nat
  isLazy : Bool
deriving DecidableEq

/-- One element of a `SubtypeTestCache`: the 4-tuple stored by
`SubtypeTestCache::AddCheck` (instance class id, instance type
arguments, instantiator type arguments, test result), from
`UpdateTypeTestCache` in `code_generator.cc`. -/
structure STCacheEntry where
  instanceClassId : Int
  instanceTypeArgs : TAVec
  instantiatorTypeArgs : TAVec
  result : Bool

/-- Key triple of a cache entry, the part compared by the linear scan
of `UpdateTypeTestCache` (raw-pointer identity for the two vectors). -/
def STCacheEntry.key (e : STCacheEntry) : Int × TAVec × TAVec :=
  (e.instanceClassId, e.instanceTypeArgs, e.instantiatorTypeArgs)

/-- Embedding of `UpdateTypeTestCache` (code_generator.cc:420-528)
after the canonicalization step: `cid`, `iTA` and `gTA` are the
instance class id and the two (already canonicalized, per
`OptimizeTypeArguments`) type-argument vectors. In source order: if
the cache holds at least `FLAG_max_subtype_cache_entries` checks,
return without inserting; if the linear scan finds an entry with the
same key triple, return without inserting; if the instantiator type
arguments are still lazy, do not insert; otherwise append the new
check. (The `new_cache.IsNull()` early return is handled by the
`Option` wrapper below.) -/
def updateTypeTestCache (maxEntries : Nat) (cid : Int) (iTA gTA : TAVec)
    (result : Bool) (cache : List STCacheEntry) : List STCacheEntry :=
  if maxEntries ≤ cache.length then cache
  else if (cid, iTA, gTA) ∈ cache.map STCacheEntry.key then cache
  else if gTA.isLazy then cache
  else cache ++ [⟨cid, iTA, gTA, result⟩]

/-- The `new_cache.IsNull()` guard of `UpdateTypeTestCache`: a null
cache handle is left untouched. -/
def updateTypeTestCacheH (maxEntries : Nat) (cid : Int) (iTA gTA : TAVec)
    (result : Bool) : Option (List STCacheEntry) → Option (List STCacheEntry)
  | none => none
  | some c => some (updateTypeTestCache maxEntries cid iTA gTA result c)

/-- Payload of `Exceptions::CreateAndThrowTypeError` (location elided):
source type name, destination type name, destination variable name and
the optional bound-error message (a null `String` handle is `none`). -/
structure TypeErrorInfo where
  srcTypeName : String
  dstTypeName : String
  dstName : String
  boundErrorMessage : Option String

/-- Outcome of a runtime entry: a normal return through
`arguments.SetReturn`, or a `TypeError` thrown through
`Exceptions::CreateAndThrowTypeError` (which never returns —
`UNREACHABLE()` follows each throw site). -/
inductive EntryOutcome (α : Type) where
  | ret (v : α)
  | thrown (e : TypeErrorInfo)

/-- Embedding of the `Instanceof` runtime entry
(code_generator.cc:539-573). `testResult` and `boundError` are the
outputs of the object-model oracle `instance.IsInstanceOf(type,
instantiator_type_arguments, &bound_error)`; `cid`, `iTA`, `gTA` are
the canonicalized cache key of the instance. A type error (with empty
symbol names and the bound-error message) is thrown only when the test
result is false and a bound error was produced; otherwise the cache is
updated and the boolean result returned. -/
def instanceofEntry (maxEntries : Nat) (cid : Int) (iTA gTA : TAVec)
    (testResult : Bool) (boundError : Option String)
    (cache : Option (List STCacheEntry)) :
    EntryOutcome Bool × Option (List STCacheEntry) :=
  match testResult, boundError with
  | false, some msg => (.thrown ⟨"", "", "", some msg⟩, cache)
  | r, _ => (.ret r, updateTypeTestCacheH maxEntries cid iTA gTA r cache)

/-- Embedding of the `TypeCheck` runtime entry
(code_generator.cc:585-638). `isInstanceOf` and `boundError` are the
outputs of the `IsInstanceOf` oracle; `srcInstance` is the identity of
the instance being assigned; `srcTypeName` is
`src_instance.GetType().UserVisibleName()` and `dstTypeName` the
(instantiated if necessary) `dst_type.UserVisibleName()`. On failure a
type error carrying the two type names and the destination variable
name is thrown; on success the check is inserted with result true and
the instance is returned. -/
def typeCheckEntry (maxEntries : Nat) (cid : Int) (iTA gTA : TAVec)
    (isInstanceOf : Bool) (boundError : Option String) (srcInstance : Nat)
    (srcTypeName dstTypeName dstName : String)
    (cache : Option (List STCacheEntry)) :
    EntryOutcome Nat × Option (List STCacheEntry) :=
  if isInstanceOf then
    (.ret srcInstance, updateTypeTestCacheH maxEntries cid iTA gTA true cache)
  else
    (.thrown ⟨srcTypeName, dstTypeName, dstName, boundError⟩, cache)

/-- One call into the type engine through either of the two cache-using
runtime entries, carrying the respective oracle outputs. -/
inductive STRequest where
  | instanceOfReq (cid : Int) (iTA gTA : TAVec) (testResult : Bool)
      (boundError : Option String)
  | typeCheckReq (cid : Int) (iTA gTA : TAVec) (isInstanceOf : Bool)
      (boundError : Option String) (srcInstance : Nat)
      (srcTypeName dstTypeName dstName : String)

/-- Effect of one `Instanceof` or `TypeCheck` runtime-entry call on the
subtype-test cache. -/
def applySTRequest (maxEntries : Nat) (r : STRequest)
    (cache : Option (List STCacheEntry)) : Option (List STCacheEntry) :=
  match r with
  | .instanceOfReq cid iTA gTA res bErr =>
      (instanceofEntry maxEntries cid iTA gTA res bErr cache).2
  | .typeCheckReq cid iTA gTA isInst bErr inst s1 s2 s3 =>
      (typeCheckEntry maxEntries cid iTA gTA isInst bErr inst s1 s2 s3 cache).2

/-- A subtype-test cache holds no two entries with the same key triple. -/
def noDuplicateKeys (c : List STCacheEntry) : Prop :=
  (c.map STCacheEntry.key).Nodup

instance (c : List STCacheEntry) : Decidable (noDuplicateKeys c) :=
  List.nodupDecidable _

theorem updateTypeTestCache_length_le (maxEntries : Nat) (cid : Int)
    (iTA gTA : TAVec) (result : Bool) (c : List STCacheEntry)
    (h : c.length ≤ maxEntries) :
    (updateTypeTestCache maxEntries cid iTA gTA result c).length ≤ maxEntries := by
  unfold updateTypeTestCache
  split
  · exact h
  · split
    · exact h
    · split
      · exact h
      · rename_i hlen _ _
        simp only [List.length_append, List.length_cons, List.length_nil]
        omega

theorem applySTRequest_length_le (maxEntries : Nat) (r : STRequest)
    (c : List STCacheEntry) (h : c.length ≤ maxEntries) :
    ∀ c2, applySTRequest maxEntries r (some c) = some c2 →
      c2.length ≤ maxEntries := by
  intro c2 hc2
  cases r with
  | instanceOfReq cid iTA gTA res bErr =>
    cases res with
    | false =>
      cases bErr with
      | none =>
        simp only [applySTRequest, instanceofEntry, updateTypeTestCacheH,
          Option.some.injEq] at hc2
        exact hc2 ▸ updateTypeTestCache_length_le _ _ _ _ _ _ h
      | some msg =>
        simp only [applySTRequest, instanceofEntry, Option.some.injEq] at hc2
        exact hc2 ▸ h
    | true =>
      simp only [applySTRequest, instanceofEntry, updateTypeTestCacheH,
        Option.some.injEq] at hc2
      exact hc2 ▸ updateTypeTestCache_length_le _ _ _ _ _ _ h
  | typeCheckReq cid iTA gTA isInst bErr inst s1 s2 s3 =>
    cases isInst with
    | false =>
      simp only [applySTRequest, typeCheckEntry, Bool.false_eq_true,
        if_false, Option.some.injEq] at hc2
      exact hc2 ▸ h
    | true =>
      simp only [applySTRequest, typeCheckEntry, if_true,
        updateTypeTestCacheH, Option.some.injEq] at hc2
      exact hc2 ▸ updateTypeTestCache_length_le _ _ _ _ _ _ h

theorem foldSTRequests_length_le (maxEntries : Nat) (reqs : List STRequest) :
    ∀ (c0 c1 : List STCacheEntry), c0.length ≤ maxEntries →
      reqs.foldl (fun acc r => applySTRequest maxEntries r acc) (some c0) =
        some c1 →
      c1.length ≤ maxEntries := by
  induction reqs with
  | nil =>
    intro c0 c1 h0 hfold
    simp only [List.foldl_nil, Option.some.injEq] at hfold
    exact hfold ▸ h0
  | cons r rs ih =>
    intro c0 c1 h0 hfold
    simp only [List.foldl_cons] at hfold
    have hmid : ∃ cm, applySTRequest maxEntries r (some c0) = some cm := by
      cases r with
      | instanceOfReq cid iTA gTA res bErr =>
        cases res <;> cases bErr <;>
          simp [applySTRequest, instanceofEntry, updateTypeTestCacheH]
      | typeCheckReq cid iTA gTA isInst bErr inst s1 s2 s3 =>
        cases isInst <;>
          simp [applySTRequest, typeCheckEntry, updateTypeTestCacheH]
    obtain ⟨cm, hcm⟩ := hmid
    rw [hcm] at hfold
    exact ih cm c1 (applySTRequest_length_le maxEntries r c0 h0 cm hcm) hfold

/-- C4: along every sequence of `Instanceof` or `TypeCheck`
runtime-entry calls against the same subtype-test cache, the number of
cache entries never exceeds `FLAG_max_subtype_cache_entries`, and a
call finding the cache at or above that maximum performs no
insertion. -/
theorem c4_subtype_cache_bounded (maxEntries : Nat) :
    (∀ (c : List STCacheEntry) (cid : Int) (iTA gTA : TAVec) (result : Bool),
      maxEntries ≤ c.length →
      updateTypeTestCache maxEntries cid iTA gTA result c = c) ∧
    (∀ (reqs : List STRequest) (c0 c1 : List STCacheEntry),
      c0.length ≤ maxEntries →
      reqs.foldl (fun acc r => applySTRequest maxEntries r acc) (some c0) =
        some c1 →
      c1.length ≤ maxEntries) := by
  constructor
  · intro c cid iTA gTA result h
    unfold updateTypeTestCache
    rw [if_pos h]
  · exact foldSTRequests_length_le maxEntries

/-- Witness for C4 at concrete inputs: a full cache (max = 1) rejects
an insertion, and a two-request sequence from the empty cache stays
within a maximum of 1 entry. -/
theorem c4_subtype_cache_bounded_witness :
    (updateTypeTestCache 1 7 ⟨0, false⟩ ⟨1, false⟩ true
        [⟨3, ⟨4, false⟩, ⟨5, false⟩, false⟩] =
      [⟨3, ⟨4, false⟩, ⟨5, false⟩, false⟩]) ∧
    ([⟨7, ⟨0, false⟩, ⟨1, false⟩, true⟩] : List STCacheEntry).length ≤ 1 :=
  ⟨(c4_subtype_cache_bounded 1).1 _ 7 ⟨0, false⟩ ⟨1, false⟩ true (by decide),
   (c4_subtype_cache_bounded 1).2
      [STRequest.instanceOfReq 7 ⟨0, false⟩ ⟨1, false⟩ true none,
       STRequest.instanceOfReq 8 ⟨2, false⟩ ⟨3, false⟩ true none]
      [] [⟨7, ⟨0, false⟩, ⟨1, false⟩, true⟩] (by decide) rfl⟩

theorem updateTypeTestCache_nodup (maxEntries : Nat) (cid : Int)
    (iTA gTA : TAVec) (result : Bool) (c : List STCacheEntry)
    (h : noDuplicateKeys c) :
    noDuplicateKeys (updateTypeTestCache maxEntries cid iTA gTA result c) := by
  unfold updateTypeTestCache
  split
  · exact h
  · split
    · exact h
    · split
      · exact h
      · rename_i hmem _
        unfold noDuplicateKeys at h ⊢
        simp only [List.map_append, List.map_cons, List.map_nil]
        rw [List.nodup_append]
        refine ⟨h, List.nodup_singleton _, ?_⟩
        intro k hk hk2
        simp only [STCacheEntry.key, List.mem_singleton] at hk2
        exact hmem (hk2 ▸ hk)

/-- C5: the subtype-test cache never contains two entries with the same
key triple — `UpdateTypeTestCache` preserves key-distinctness — and a
call whose (canonicalized) key triple already occurs in the cache
leaves the cache unchanged. -/
theorem c5_subtype_cache_no_duplicates (maxEntries : Nat) (cid : Int)
    (iTA gTA : TAVec) (result : Bool) (c : List STCacheEntry) :
    (noDuplicateKeys c →
      noDuplicateKeys (updateTypeTestCache maxEntries cid iTA gTA result c)) ∧
    ((cid, iTA, gTA) ∈ c.map STCacheEntry.key →
      updateTypeTestCache maxEntries cid iTA gTA result c = c) := by
  constructor
  · exact updateTypeTestCache_nodup maxEntries cid iTA gTA result c
  · intro hmem
    unfold updateTypeTestCache
    by_cases hlen : maxEntries ≤ c.length
    · rw [if_pos hlen]
    · rw [if_neg hlen, if_pos hmem]

/-- Witness for C5 at concrete inputs: inserting a fresh key into a
one-entry cache keeps the keys distinct, and re-inserting the existing
key leaves the cache unchanged. -/
theorem c5_subtype_cache_no_duplicates_witness :
    noDuplicateKeys (updateTypeTestCache 100 7 ⟨0, false⟩ ⟨1, false⟩ true
      [⟨3, ⟨4, false⟩, ⟨5, false⟩, false⟩]) ∧
    updateTypeTestCache 100 3 ⟨4, false⟩ ⟨5, false⟩ true
        [⟨3, ⟨4, false⟩, ⟨5, false⟩, false⟩] =
      [⟨3, ⟨4, false⟩, ⟨5, false⟩, false⟩] := by
  refine ⟨(c5_subtype_cache_no_duplicates 100 7 ⟨0, false⟩ ⟨1, false⟩ true _).1
      (by decide),
    (c5_subtype_cache_no_duplicates 100 3 ⟨4, false⟩ ⟨5, false⟩ true _).2
      (by decide)⟩

/-- C10: the `Instanceof` runtime entry throws a `TypeError` iff the
instance-of test returned false and produced a non-null bound error;
when the test returns true the entry returns true normally and updates
the cache even if a bound error was generated. -/
theorem c10_instanceof_throw_iff (maxEntries : Nat) (cid : Int) (iTA gTA : TAVec)
    (testResult : Bool) (boundError : Option String)
    (cache : Option (List STCacheEntry)) :
    ((∃ e, (instanceofEntry maxEntries cid iTA gTA testResult boundError
        cache).1 = .thrown e) ↔ (testResult = false ∧ boundError ≠ none)) ∧
    (testResult = true →
      instanceofEntry maxEntries cid iTA gTA testResult boundError cache =
        (.ret true, updateTypeTestCacheH maxEntries cid iTA gTA true cache)) := by
  constructor
  · cases testResult <;> cases boundError <;> simp [instanceofEntry]
  · intro ht
    subst ht
    cases boundError <;> simp [instanceofEntry]

/-- Witness for C10 at a concrete input: the test succeeded while a
bound error was produced, and the entry still returns true and inserts
into the cache. -/
theorem c10_instanceof_throw_iff_witness :
    instanceofEntry 100 1 ⟨0, false⟩ ⟨1, false⟩ true (some "b") (some []) =
      (.ret true, some [⟨1, ⟨0, false⟩, ⟨1, false⟩, true⟩]) :=
  (c10_instanceof_throw_iff 100 1 ⟨0, false⟩ ⟨1, false⟩ true (some "b")
      (some [])).2 rfl

/-- C9: the `TypeCheck` runtime entry throws a `TypeError` carrying the
source type name, the destination type name and the destination
variable name when the instance-of test fails (no normal return, cache
untouched); when the test succeeds it returns the instance unchanged
and inserts the check with result true into the subtype-test cache
(the insertion actually lands whenever the canonicalized key is fresh,
the cache is below its maximum and the instantiator type arguments are
not lazy). -/
theorem c9_typecheck_throws_or_caches (maxEntries : Nat) (cid : Int)
    (iTA gTA : TAVec) (isInstanceOf : Bool) (boundError : Option String)
    (srcInstance : Nat) (srcTypeName dstTypeName dstName : String)
    (cache : Option (List STCacheEntry)) :
    (isInstanceOf = false →
      typeCheckEntry maxEntries cid iTA gTA isInstanceOf boundError srcInstance
          srcTypeName dstTypeName dstName cache =
        (.thrown ⟨srcTypeName, dstTypeName, dstName, boundError⟩, cache)) ∧
    (isInstanceOf = true →
      typeCheckEntry maxEntries cid iTA gTA isInstanceOf boundError srcInstance
          srcTypeName dstTypeName dstName cache =
        (.ret srcInstance,
          updateTypeTestCacheH maxEntries cid iTA gTA true cache)) ∧
    (isInstanceOf = true → ∀ c, cache = some c → c.length < maxEntries →
      (cid, iTA, gTA) ∉ c.map STCacheEntry.key → gTA.isLazy = false →
      (typeCheckEntry maxEntries cid iTA gTA isInstanceOf boundError srcInstance
          srcTypeName dstTypeName dstName cache).2 =
        some (c ++ [⟨cid, iTA, gTA, true⟩])) := by
  refine ⟨?_, ?_, ?_⟩
  · intro hf
    subst hf
    simp [typeCheckEntry]
  · intro ht
    subst ht
    simp [typeCheckEntry]
  · intro ht c hc hlen hmem hlazy
    subst ht
    subst hc
    simp only [typeCheckEntry, if_true, updateTypeTestCacheH]
    unfold updateTypeTestCache
    rw [if_neg (by omega), if_neg hmem, if_neg (by simp [hlazy])]

/-- Witness for C9 at concrete inputs: a failing check throws with the
three names; a passing check returns the instance and appends the
cache entry. -/
theorem c9_typecheck_throws_or_caches_witness :
    (typeCheckEntry 100 1 ⟨0, false⟩ ⟨1, false⟩ false none 42 "int" "String" "x"
        (some []) =
      (.thrown ⟨"int", "String", "x", none⟩, some [])) ∧
    ((typeCheckEntry 100 1 ⟨0, false⟩ ⟨1, false⟩ true none 42 "int" "String" "x"
        (some [])).2 = some [⟨1, ⟨0, false⟩, ⟨1, false⟩, true⟩]) := by
  refine ⟨(c9_typecheck_throws_or_caches 100 1 ⟨0, false⟩ ⟨1, false⟩ false none
      42 "int" "String" "x" (some [])).1 rfl, ?_⟩
  have h := (c9_typecheck_throws_or_caches 100 1 ⟨0, false⟩ ⟨1, false⟩ true none
      42 "int" "String" "x" (some [])).2.2 rfl [] rfl (by decide) (by decide)
      (by decide)
  exact h

/-- One IC check: a class-id vector paired with the resolved target
function (identity). -/
structure ICCheck where
  classIds : List Int
  target : Nat

/-- Per-call-site IC data: the number of arguments tested and the
ordered list of recorded checks. -/
structure ICData where
  numArgsTested : Nat
  checks : List ICCheck

/-- A check matches a receiver class id when the first element of its
class-id vector is that id (as in `ICData::GetReceiverClassIdAt`). -/
def receiverCidPred (cid : Int) (c : ICCheck) : Bool :=
  c.classIds.head? == some cid

/-- Embedding of `ICData::GetTargetForReceiverClassId`: the target of
the first check whose receiver class id matches, if any. -/
def ICData.getTargetForReceiverClassId (ic : ICData) (cid : Int) : Option Nat :=
  (ic.checks.find? (receiverCidPred cid)).map ICCheck.target

/-- Number of checks recorded for the given receiver class id. -/
def ICData.checksForReceiverCid (ic : ICData) (cid : Int) : Nat :=
  (ic.checks.filter (receiverCidPred cid)).length

/-- Embedding of the IC-data mutation of the `InstanceFunctionLookup`
runtime entry (code_generator.cc:1171-1230) together with its helper
`ResolveCallThroughGetter` (1117-1156). `getterResolves` is the oracle
for "a getter with the same name exists and is not a method
extractor"; `argCids` are the class ids of the marshalled argument
array (receiver at index 0); `invokeFieldTarget` and `nsmTarget` are
the two invocation-dispatcher functions supplied by the receiver
class. On the getter path `AddReceiverCheck` records the check
unconditionally. On the noSuchMethod path, when one argument is
tested, the entry first consults `GetTargetForReceiverClassId` and
only records the check when no entry for the receiver class id exists;
when more than one argument is tested it builds the class-id vector
from the receiver and argument class ids and records it with
`AddCheck` unconditionally. -/
def instanceFunctionLookup (getterResolves : Bool) (ic : ICData)
    (receiverCid : Int) (argCids : List Int)
    (invokeFieldTarget nsmTarget : Nat) : ICData :=
  if getterResolves then
    { ic with checks := ic.checks ++ [⟨[receiverCid], invokeFieldTarget⟩] }
  else if ic.numArgsTested = 1 then
    if (ic.getTargetForReceiverClassId receiverCid).isSome then ic
    else { ic with checks := ic.checks ++ [⟨[receiverCid], nsmTarget⟩] }
  else
    let rest := (List.range (ic.numArgsTested - 1)).map
      (fun i => argCids.getD (i + 1) 0)
    { ic with checks := ic.checks ++ [⟨receiverCid :: rest, nsmTarget⟩] }

/-- C6 counterexample: with `num_args_tested = 2` the noSuchMethod path
records the check unconditionally (no duplicate guard), so an IC data
that already holds a check `[5, 7]` for receiver class id 5, on a miss
with receiver class id 5 and argument class id 8, ends up with two
checks whose receiver class id is 5 — the claim's "at most one check
... for any value of num_args_tested" fails. -/
theorem c6_counterexample :
    (instanceFunctionLookup false ⟨2, [⟨[5, 7], 9⟩]⟩ 5 [5, 8] 0 9
        ).checksForReceiverCid 5 = 2 ∧
    ¬ ((instanceFunctionLookup false ⟨2, [⟨[5, 7], 9⟩]⟩ 5 [5, 8] 0 9
        ).checksForReceiverCid 5 ≤ 1) := by
  decide

theorem find?_none_count_zero (cid : Int) (l : List ICCheck)
    (h : l.find? (receiverCidPred cid) = none) :
    (l.filter (receiverCidPred cid)).length = 0 := by
  rw [List.find?_eq_none] at h
  simp only [List.length_eq_zero, List.filter_eq_nil_iff]
  exact h

theorem find?_some_count_pos (cid : Int) (l : List ICCheck) (c : ICCheck)
    (h : l.find? (receiverCidPred cid) = some c) :
    0 < (l.filter (receiverCidPred cid)).length := by
  have hmem : c ∈ l := List.mem_of_find?_eq_some h
  have hp : receiverCidPred cid c = true := List.find?_some h
  have : c ∈ l.filter (receiverCidPred cid) := List.mem_filter.mpr ⟨hmem, hp⟩
  exact List.length_pos.mpr (List.ne_nil_of_mem this)

/-- C6 amended: on the noSuchMethod path with `num_args_tested = 1`,
the entry never duplicates an existing entry for the receiver's class
id — after the call the number of checks for that id is
`max (previous count) 1`; with `num_args_tested ≠ 1` the built
class-id vector is appended unconditionally. -/
theorem c6_nsm_no_duplicate_when_one_arg (ic : ICData) (receiverCid : Int)
    (argCids : List Int) (invokeFieldTarget nsmTarget : Nat) :
    (ic.numArgsTested = 1 →
      (instanceFunctionLookup false ic receiverCid argCids invokeFieldTarget
          nsmTarget).checksForReceiverCid receiverCid =
        max (ic.checksForReceiverCid receiverCid) 1) ∧
    (ic.numArgsTested ≠ 1 →
      (instanceFunctionLookup false ic receiverCid argCids invokeFieldTarget
          nsmTarget).checks =
        ic.checks ++ [⟨receiverCid :: (List.range (ic.numArgsTested - 1)).map
          (fun i => argCids.getD (i + 1) 0), nsmTarget⟩]) := by
  constructor
  · intro h1
    unfold instanceFunctionLookup
    rw [if_neg (by simp), if_pos h1]
    unfold ICData.getTargetForReceiverClassId
    cases hf : ic.checks.find? (receiverCidPred receiverCid) with
    | none =>
      have h0 := find?_none_count_zero receiverCid ic.checks hf
      simp [ICData.checksForReceiverCid, receiverCidPred, h0]
    | some c =>
      have hpos := find?_some_count_pos receiverCid ic.checks c hf
      unfold ICData.checksForReceiverCid
      simp only [Option.map_some', Option.isSome_some, if_true]
      omega
  · intro h1
    unfold instanceFunctionLookup
    rw [if_neg (by simp), if_neg h1]

/-- Witness for C6 (amended) at concrete inputs: with one argument
tested, a present entry is not duplicated and an absent entry is
recorded once. -/
theorem c6_nsm_no_duplicate_when_one_arg_witness :
    ((instanceFunctionLookup false ⟨1, [⟨[5], 9⟩]⟩ 5 [5] 0 9
        ).checksForReceiverCid 5 = max 1 1) ∧
    ((instanceFunctionLookup false ⟨2, [⟨[5, 7], 9⟩]⟩ 5 [5, 7] 0 9).checks =
      [⟨[5, 7], 9⟩] ++ [⟨[5, 7], 9⟩]) := by
  refine ⟨?_, ?_⟩
  · have h := (c6_nsm_no_duplicate_when_one_arg ⟨1, [⟨[5], 9⟩]⟩ 5 [5] 0 9).1 rfl
    exact h
  · have h := (c6_nsm_no_duplicate_when_one_arg ⟨2, [⟨[5, 7], 9⟩]⟩ 5 [5, 7] 0
      9).2 (by decide)
    exact h

/-- Does `needle` occur as a contiguous substring of `hay`? Embedding
of the C `strstr(function_name, token) != NULL` test on names modelled
as character lists. -/
def containsSubstring (needle : List Char) : List Char → Bool
  | [] => needle.isPrefixOf []
  | c :: t => needle.isPrefixOf (c :: t) || containsSubstring needle t

/-- Embedding of the `FLAG_optimization_filter` test of
`CanOptimizeFunction`: the flag is either unset (`none`, the
`FLAG_optimization_filter != NULL` guard fails and the check passes)
or the list of its comma-separated tokens, one of which must occur in
the fully qualified function name. -/
def filterMatches (filter : Option (List (List Char))) (name : List Char) :
    Bool :=
  match filter with
  | none => true
  | some tokens => tokens.any fun t => containsSubstring t name

/-- Inputs of `CanOptimizeFunction` that come from the isolate and the
flags: the debugger oracle results and the relevant flag values. -/
structure OptimizerEnv where
  debuggerIsStepping : Bool
  debuggerHasBreakpoint : Bool
  deoptimizationCounterThreshold : Int
  optimizationFilter : Option (List (List Char))
  stopOnExcessiveDeoptimization : Bool

/-- The fields of a `Function` that `CanOptimizeFunction` reads or
writes. -/
structure OptFunction where
  usageCounter : Int
  deoptimizationCounter : Int
  isOptimizable : Bool
  qualifiedName : List Char

/-- Outcome of `CanOptimizeFunction`: `true` with the function
untouched, `false` with the mutated function, or the process abort of
`FATAL("Stop on excessive deoptimization")`. -/
inductive CanOptimizeOutcome where
  | optimizable (f : OptFunction)
  | notOptimizable (f : OptFunction)
  | fatalStop

/-- The sentinel `kLowInvocationCount` of `CanOptimizeFunction`. -/
def kLowInvocationCount : Int := -100000000

/-- Embedding of `CanOptimizeFunction` (code_generator.cc:1233-1288).
The four checks run in source order: debugger stepping or breakpoint
(failure sets the usage counter to 0), deoptimization counter at or
above `FLAG_deoptimization_counter_threshold` (failure aborts under
`FLAG_stop_on_excessive_deoptimization`, otherwise sets the counter to
`kLowInvocationCount`), optimization-filter mismatch and
non-optimizable flag (both set the counter to `kLowInvocationCount`). -/
def canOptimizeFunction (env : OptimizerEnv) (f : OptFunction) :
    CanOptimizeOutcome :=
  if env.debuggerIsStepping || env.debuggerHasBreakpoint then
    .notOptimizable { f with usageCounter := 0 }
  else if env.deoptimizationCounterThreshold ≤ f.deoptimizationCounter then
    if env.stopOnExcessiveDeoptimization then .fatalStop
    else .notOptimizable { f with usageCounter := kLowInvocationCount }
  else if filterMatches env.optimizationFilter f.qualifiedName = false then
    .notOptimizable { f with usageCounter := kLowInvocationCount }
  else if f.isOptimizable = false then
    .notOptimizable { f with usageCounter := kLowInvocationCount }
  else .optimizable f

/-- C1 counterexample: when the debugger check fails (the isolate is
stepping), `CanOptimizeFunction` sets the usage counter to 0, not to
the large negative sentinel `kLowInvocationCount`. -/
theorem c1_counterexample :
    canOptimizeFunction ⟨true, false, 2, none, false⟩ ⟨500, 0, true, []⟩ =
      .notOptimizable ⟨0, 0, true, []⟩ ∧
    (0 : Int) ≠ kLowInvocationCount :=
  ⟨rfl, by decide⟩

/-- C1 amended: when `CanOptimizeFunction` returns false, the
function's usage counter has been set to 0 if the failing check was
the debugger stepping/breakpoint check, and to the large negative
sentinel `kLowInvocationCount` for the other three checks (under
`FLAG_stop_on_excessive_deoptimization` the deoptimization-counter
failure aborts instead of returning). -/
theorem c1_failed_check_sets_counter (env : OptimizerEnv) (f f' : OptFunction)
    (h : canOptimizeFunction env f = .notOptimizable f') :
    ((env.debuggerIsStepping || env.debuggerHasBreakpoint) = true →
      f'.usageCounter = 0) ∧
    ((env.debuggerIsStepping || env.debuggerHasBreakpoint) = false →
      f'.usageCounter = kLowInvocationCount) := by
  unfold canOptimizeFunction at h
  constructor
  · intro hd
    rw [if_pos hd] at h
    injection h with h2
    rw [← h2]
  · intro hd
    rw [if_neg (by simp [hd])] at h
    split at h
    · split at h
      · simp at h
      · injection h with h2
        rw [← h2]
    · split at h
      · injection h with h2
        rw [← h2]
      · split at h
        · injection h with h2
          rw [← h2]
        · simp at h

/-- Witness for C1 (amended) at a concrete input: with the debugger
stepping, the returned function has usage counter 0. -/
theorem c1_failed_check_sets_counter_witness :
    ((true || false) = true → (OptFunction.mk 0 0 true []).usageCounter = 0) ∧
    ((true || false) = false →
      (OptFunction.mk 0 0 true []).usageCounter = kLowInvocationCount) :=
  c1_failed_check_sets_counter ⟨true, false, 2, none, false⟩ ⟨500, 0, true, []⟩
    ⟨0, 0, true, []⟩ rfl

/-- The two `Function` code fields that the OSR path of the
`StackOverflow` entry reads and writes. -/
structure OsrFunction where
  currentCode : Nat
  unoptimizedCode : Nat

/-- The faulting Dart frame as the OSR path sees it. -/
structure OsrFrame where
  pc : Nat

/-- Embedding of the OSR tail of the `StackOverflow` runtime entry
(code_generator.cc:1355-1371), reached when no interrupt bits are set,
`FLAG_use_osr` holds and `CanOptimizeFunction` passed. `entryPoint`
maps a code object to its instructions entry point;
`codeAfterCompile` is the oracle for `function.CurrentCode()` after
`Compiler::CompileOptimizedFunction(function, osr_id)` — equal to the
previous current code exactly when the compiler bailed out. When the
current code changed, the function's code is restored to the original
code and the frame's pc is rewritten to the new code's entry point. -/
def osrStackOverflow (entryPoint : Nat → Nat) (codeAfterCompile : Nat)
    (f : OsrFunction) (fr : OsrFrame) : OsrFunction × OsrFrame :=
  let originalCode := f.currentCode
  let f1 : OsrFunction := { f with currentCode := codeAfterCompile }
  if f1.currentCode ≠ originalCode then
    ({ f1 with currentCode := originalCode },
     { fr with pc := entryPoint f1.currentCode })
  else (f1, fr)

/-- C3: for an OSR attempt on a function whose current code is its
unoptimized code, if optimized compilation changed the function's
current code then the entry restores the current code to the
unoptimized code and rewrites the frame's pc to the new code's entry
point; if the compiler bailed out (current code unchanged) neither the
function nor the frame is modified. -/
theorem c3_osr_restores_unoptimized_code (entryPoint : Nat → Nat)
    (codeAfterCompile : Nat) (f : OsrFunction) (fr : OsrFrame)
    (hcur : f.currentCode = f.unoptimizedCode) :
    (codeAfterCompile ≠ f.currentCode →
      (osrStackOverflow entryPoint codeAfterCompile f fr).1.currentCode =
        f.unoptimizedCode ∧
      (osrStackOverflow entryPoint codeAfterCompile f fr).2.pc =
        entryPoint codeAfterCompile) ∧
    (codeAfterCompile = f.currentCode →
      osrStackOverflow entryPoint codeAfterCompile f fr = (f, fr)) := by
  constructor
  · intro hne
    simp only [osrStackOverflow]
    split
    · exact ⟨hcur, rfl⟩
    · rename_i hc
      exact absurd hne hc
  · intro he
    simp only [osrStackOverflow]
    rw [if_neg (by simp [he])]
    rw [he]

/-- Witness for C3 at concrete inputs: a successful OSR compilation
(new code 11) restores code 10 and retargets the pc; a bailout leaves
the state unchanged. -/
theorem c3_osr_restores_unoptimized_code_witness :
    ((osrStackOverflow (fun c => c * 2) 11 ⟨10, 10⟩ ⟨55⟩).1.currentCode = 10 ∧
      (osrStackOverflow (fun c => c * 2) 11 ⟨10, 10⟩ ⟨55⟩).2.pc = 11 * 2) ∧
    osrStackOverflow (fun c => c * 2) 10 ⟨10, 10⟩ ⟨55⟩ = (⟨10, 10⟩, ⟨55⟩) :=
  ⟨(c3_osr_restores_unoptimized_code (fun c => c * 2) 11 ⟨10, 10⟩ ⟨55⟩ rfl).1
      (by decide),
   (c3_osr_restores_unoptimized_code (fun c => c * 2) 10 ⟨10, 10⟩ ⟨55⟩ rfl).2
      rfl⟩

/-- Static facts `DeoptimizeAt` relies on: the function's unoptimized
code object, the optimized code's lazy-deopt address
(`GetLazyDeoptPc`) and which code objects are optimized
(`Code::is_optimized`, used by `Function::HasOptimizedCode` on the
function's current code). -/
structure DeoptCodeEnv where
  unoptimizedCodeId : Nat
  lazyDeoptJump : Nat
  isOptimizedCode : Nat → Bool

/-- Mutable state touched by `DeoptimizeAt`: the optimized code's
alive flag, the function's current code, and the patched call targets
by pc (`CodePatcher::InsertCallAt`). -/
@[ext]
structure VMDeoptState where
  codeIsAlive : Bool
  functionCurrentCode : Nat
  callSites : Nat → Option Nat

/-- Embedding of `DeoptimizeAt` (code_generator.cc:1474-1494): if the
function still has optimized code as current, switch it to the
unoptimized code; patch the call at `pc` to the code's lazy-deopt
address; mark the optimized code dead. -/
def deoptimizeAt (env : DeoptCodeEnv) (pc : Nat) (s : VMDeoptState) :
    VMDeoptState :=
  let s1 := if env.isOptimizedCode s.functionCurrentCode then
      { s with functionCurrentCode := env.unoptimizedCodeId }
    else s
  { s1 with
    callSites := fun p =>
      if p = pc then some env.lazyDeoptJump else s1.callSites p,
    codeIsAlive := false }

theorem deoptimizeAt_alive (env : DeoptCodeEnv) (pc : Nat) (s : VMDeoptState) :
    (deoptimizeAt env pc s).codeIsAlive = false := by
  cases hb : env.isOptimizedCode s.functionCurrentCode <;>
    simp [deoptimizeAt, hb]

theorem deoptimizeAt_fc (env : DeoptCodeEnv) (pc : Nat) (s : VMDeoptState) :
    (deoptimizeAt env pc s).functionCurrentCode =
      if env.isOptimizedCode s.functionCurrentCode then env.unoptimizedCodeId
      else s.functionCurrentCode := by
  cases hb : env.isOptimizedCode s.functionCurrentCode <;>
    simp [deoptimizeAt, hb]

theorem deoptimizeAt_callSites (env : DeoptCodeEnv) (pc : Nat)
    (s : VMDeoptState) :
    (deoptimizeAt env pc s).callSites =
      fun p => if p = pc then some env.lazyDeoptJump else s.callSites p := by
  cases hb : env.isOptimizedCode s.functionCurrentCode <;>
    simp [deoptimizeAt, hb]

theorem deoptimizeAt_fc_not_optimized (env : DeoptCodeEnv) (pc : Nat)
    (s : VMDeoptState)
    (hunopt : env.isOptimizedCode env.unoptimizedCodeId = false) :
    env.isOptimizedCode (deoptimizeAt env pc s).functionCurrentCode = false := by
  rw [deoptimizeAt_fc]
  cases hb : env.isOptimizedCode s.functionCurrentCode
  · simp [hb]
  · simp [hunopt]

/-- C7: after `DeoptimizeAt(code, pc)` on an optimized code object,
the code's alive flag is false, the call site at `pc` is patched to
the code's lazy-deopt address, the function's current code has been
switched to the unoptimized code if it still was optimized, and a
second identical call produces the same final state (the unoptimized
code itself is never optimized). -/
theorem c7_deoptimize_at (env : DeoptCodeEnv) (pc : Nat) (s : VMDeoptState)
    (hunopt : env.isOptimizedCode env.unoptimizedCodeId = false) :
    (deoptimizeAt env pc s).codeIsAlive = false ∧
    (deoptimizeAt env pc s).callSites pc = some env.lazyDeoptJump ∧
    (env.isOptimizedCode s.functionCurrentCode = true →
      (deoptimizeAt env pc s).functionCurrentCode = env.unoptimizedCodeId) ∧
    deoptimizeAt env pc (deoptimizeAt env pc s) = deoptimizeAt env pc s := by
  refine ⟨deoptimizeAt_alive env pc s, ?_, ?_, ?_⟩
  · rw [deoptimizeAt_callSites]
    simp
  · intro hopt
    rw [deoptimizeAt_fc, if_pos hopt]
  · have hfc := deoptimizeAt_fc_not_optimized env pc s hunopt
    apply VMDeoptState.ext
    · rw [deoptimizeAt_alive, deoptimizeAt_alive]
    · rw [deoptimizeAt_fc, if_neg (by simp [hfc])]
    · funext p
      by_cases hp : p = pc
      · subst hp
        simp [deoptimizeAt_callSites]
      · simp [deoptimizeAt_callSites, hp]

/-- Witness for C7 at a concrete input: code 1 is optimized, code 2 is
the unoptimized code, the lazy-deopt address is 77, the patch site is
pc 5. -/
theorem c7_deoptimize_at_witness :
    (deoptimizeAt ⟨2, 77, fun n => n == 1⟩ 5
        ⟨true, 1, fun _ => none⟩).codeIsAlive = false ∧
    (deoptimizeAt ⟨2, 77, fun n => n == 1⟩ 5
        ⟨true, 1, fun _ => none⟩).callSites 5 = some 77 ∧
    ((1 == 1) = true →
      (deoptimizeAt ⟨2, 77, fun n => n == 1⟩ 5
        ⟨true, 1, fun _ => none⟩).functionCurrentCode = 2) ∧
    deoptimizeAt ⟨2, 77, fun n => n == 1⟩ 5
        (deoptimizeAt ⟨2, 77, fun n => n == 1⟩ 5 ⟨true, 1, fun _ => none⟩) =
      deoptimizeAt ⟨2, 77, fun n => n == 1⟩ 5 ⟨true, 1, fun _ => none⟩ :=
  c7_deoptimize_at ⟨2, 77, fun n => n == 1⟩ 5 ⟨true, 1, fun _ => none⟩
    rfl

/-- A Dart frame as `DeoptimizeIfOwner` inspects it: whether its code
object is optimized and the class id of the code's function's owner. -/
structure DIOFrame where
  isOptimized : Bool
  ownerCid : Int

/-- Embedding of the helper `ContainsCid` (code_generator.cc:1514-1521). -/
def containsCid : List Int → Int → Bool
  | [], _ => false
  | c :: t, cid => if c = cid then true else containsCid t cid

/-- Iteration of the `while (frame != NULL)` loop of
`DeoptimizeIfOwner` (code_generator.cc:1529-1538). The loop body never
reassigns `frame` (unlike `DeoptimizeAll`, whose body ends with
`frame = iterator.NextFrame()`), so the same frame is re-examined on
every iteration. The accumulator counts `DeoptimizeAt` applications;
the `fuel` bound makes the loop a total function, with `none` meaning
the fuel was exhausted without the loop exiting. -/
def deoptimizeIfOwnerLoop (classes : List Int) (frame : DIOFrame)
    (deoptCount : Nat) : Nat → Option Nat
  | 0 => none
  | fuel + 1 =>
    let newCount :=
      if frame.isOptimized && containsCid classes frame.ownerCid then
        deoptCount + 1
      else deoptCount
    deoptimizeIfOwnerLoop classes frame newCount fuel

/-- Embedding of `DeoptimizeIfOwner` (code_generator.cc:1525-1539):
the first Dart frame is fetched once before the loop; the result is
the number of `DeoptimizeAt` applications if the loop exits within
`fuel` iterations, `none` otherwise. -/
def deoptimizeIfOwner (classes : List Int) (frames : List DIOFrame)
    (fuel : Nat) : Option Nat :=
  match frames with
  | [] => some 0
  | f :: _ => deoptimizeIfOwnerLoop classes f 0 fuel

theorem deoptimizeIfOwnerLoop_eq_none (classes : List Int) (frame : DIOFrame) :
    ∀ (fuel deoptCount : Nat),
      deoptimizeIfOwnerLoop classes frame deoptCount fuel = none := by
  intro fuel
  induction fuel with
  | zero => intro n; rfl
  | succ k ih =>
    intro n
    simp only [deoptimizeIfOwnerLoop]
    exact ih _

/-- C2 (evidence of the code bug): on every stack with at least one
Dart frame, `DeoptimizeIfOwner` fails to terminate within any
iteration bound, because its loop never advances the frame iterator;
on the empty stack it returns at once having deoptimized nothing. -/
theorem c2_deoptimize_if_owner_diverges (classes : List Int) (f : DIOFrame)
    (rest : List DIOFrame) :
    (∀ fuel : Nat, deoptimizeIfOwner classes (f :: rest) fuel = none) ∧
    (∀ fuel : Nat, deoptimizeIfOwner classes [] fuel = some 0) :=
  ⟨fun fuel => deoptimizeIfOwnerLoop_eq_none classes f fuel 0,
   fun _ => rfl⟩

/-- Events at deopt-context granularity: the three deoptimization
phase entries and any other runtime entry (which leaves
`isolate->deopt_context` alone). -/
inductive DeoptPhaseEvent where
  | copyFrame
  | fillFrame
  | materialize
  | other

/-- Effect of one event on `isolate->deopt_context`, abstracted to
presence (`true` = non-null). `DeoptimizeCopyFrame` constructs a
`DeoptContext` and installs it (code_generator.cc:1595-1599);
`DeoptimizeFillFrame` dereferences it (1614); `DeoptimizeMaterialize`
dereferences it, resets it to null and deletes it (1655-1658). The
outer `none` marks a null dereference: a fill or materialize phase
with no context installed. -/
def stepDeoptContext : Bool → DeoptPhaseEvent → Option Bool
  | _, .copyFrame => some true
  | b, .fillFrame => if b then some true else none
  | b, .materialize => if b then some false else none
  | b, .other => some b

def runDeoptPhasesFrom : Bool → List DeoptPhaseEvent → Option Bool
  | b, [] => some b
  | b, e :: es =>
    match stepDeoptContext b e with
    | none => none
    | some b2 => runDeoptPhasesFrom b2 es

/-- State of `isolate->deopt_context` after a trace of runtime-entry
events, starting from an isolate with no deopt context. -/
def runDeoptPhases (tr : List DeoptPhaseEvent) : Option Bool :=
  runDeoptPhasesFrom false tr

/-- A trace is inside a copy→materialize window when a
`DeoptimizeCopyFrame` occurred with no later `DeoptimizeMaterialize`. -/
def windowStep (b : Bool) : DeoptPhaseEvent → Bool
  | .copyFrame => true
  | .materialize => false
  | _ => b

def inWindow (tr : List DeoptPhaseEvent) : Bool :=
  tr.foldl windowStep false

theorem runDeoptPhasesFrom_eq_foldl :
    ∀ (tr : List DeoptPhaseEvent) (b b2 : Bool),
      runDeoptPhasesFrom b tr = some b2 → b2 = tr.foldl windowStep b := by
  intro tr
  induction tr with
  | nil =>
    intro b b2 h
    simp only [runDeoptPhasesFrom, Option.some.injEq] at h
    simp [h]
  | cons e es ih =>
    intro b b2 h
    cases e with
    | copyFrame =>
      simp only [runDeoptPhasesFrom, stepDeoptContext] at h
      simpa [windowStep] using ih true b2 h
    | fillFrame =>
      cases b with
      | false => simp [runDeoptPhasesFrom, stepDeoptContext] at h
      | true =>
        simp [runDeoptPhasesFrom, stepDeoptContext] at h
        simpa [windowStep] using ih true b2 h
    | materialize =>
      cases b with
      | false => simp [runDeoptPhasesFrom, stepDeoptContext] at h
      | true =>
        simp [runDeoptPhasesFrom, stepDeoptContext] at h
        simpa [windowStep] using ih false b2 h
    | other =>
      simp only [runDeoptPhasesFrom, stepDeoptContext] at h
      simpa [windowStep] using ih b b2 h

/-- C8: for every event trace that completes without dereferencing a
null deopt context, the isolate's deopt context is non-null after the
trace exactly when the trace ends inside a `DeoptimizeCopyFrame` →
`DeoptimizeMaterialize` window; outside such a window it is null. -/
theorem c8_deopt_context_window (tr : List DeoptPhaseEvent) (b : Bool)
    (h : runDeoptPhases tr = some b) : b = inWindow tr :=
  runDeoptPhasesFrom_eq_foldl tr false b h

/-- Witness for C8 at concrete traces: after copy and fill the context
is present; after the materialize phase it is gone. -/
theorem c8_deopt_context_window_witness :
    (runDeoptPhases [.copyFrame, .fillFrame] = some true ∧
      true = inWindow [.copyFrame, .fillFrame]) ∧
    (runDeoptPhases [.copyFrame, .fillFrame, .materialize] = some false ∧
      false = inWindow [.copyFrame, .fillFrame, .materialize]) :=
  ⟨⟨rfl, c8_deopt_context_window [.copyFrame, .fillFrame] true rfl⟩,
   ⟨rfl, c8_deopt_context_window [.copyFrame, .fillFrame, .materialize] false
      rfl⟩⟩

end CodeGen
